import Mathlib

/-!
# A shallow embedding of `SolanaDexClient` (solana-dex-sdk)

This file models the orchestration logic of `src/SolanaDexClient.ts`: the swap
pipeline (`validatePreSwap` → `getPriorityFee` → `getSwapQuote` →
`getSwapTransactions` → `processTransactions`), the token-account resolver
(`getTokenAccount` / `createTokenAccount` / `checkOrCreateTokenAccount`), the
transfer operations (`sendSol`, `sendToken`), the price poller registry
(`subscribeToPrice` / `unsubscribeFromPrice`), and the lookup helpers
(`getTokenPrice`, `getTokenDecimals`).

All external collaborators (the RPC connection, the quote/build/fee/price
APIs) are modelled by an `Env` record that fixes the outcome of each external
call.  Every operation returns its result as `Except Err α` (a thrown
JavaScript error becomes `Except.error`) paired with a `List Event` trace that
records, in order, the externally visible actions the operation performed —
in particular every transaction broadcast.
-/

namespace SolanaDex

/-- Minimum SOL balance required for transaction fees, in lamports
(`MIN_SOL_BALANCE = 10000000; // 0.01 SOL` in the source). -/
def MIN_SOL_BALANCE : Nat := 10000000

/-- `LAMPORTS_PER_SOL` from `@solana/web3.js`: 10^9 lamports per SOL. -/
def LAMPORTS_PER_SOL : ℚ := 1000000000

/-- The client's fixed transaction-format version (`this.txVersion = "V0"`). -/
def txVersion : String := "V0"

/-- Whether `xs` starts with the sequence `pat` (helper for the substring
test used to model JavaScript `String.prototype.includes`). -/
def startsWithSeq : List Char → List Char → Bool
  | [], _ => true
  | _ :: _, [] => false
  | p :: ps, c :: cs => p == c && startsWithSeq ps cs

/-- Whether the sequence `pat` occurs somewhere inside `xs`. -/
def hasSubSeq (pat : List Char) : List Char → Bool
  | [] => startsWithSeq pat []
  | c :: cs => startsWithSeq pat (c :: cs) || hasSubSeq pat cs

/-- Models `s.includes(pat)` for a non-empty pattern `pat` (the source only
tests for the non-empty pattern `"already in use"`). -/
def includesSub (s pat : String) : Bool := hasSubSeq pat.data s.data

/-- JavaScript `Math.round` on an exact rational input: `⌊x + 1/2⌋`
(round half toward positive infinity). -/
def jsRound (x : ℚ) : Int := ⌊x + 1/2⌋

/-- Decidable equality for `Except`, used to evaluate the operations'
results on concrete inputs. -/
instance {ε α : Type} [DecidableEq ε] [DecidableEq α] :
    DecidableEq (Except ε α) := fun x y =>
  match x, y with
  | Except.error e, Except.error f =>
      match decEq e f with
      | isTrue h => isTrue (congrArg Except.error h)
      | isFalse h => isFalse (fun hh => h (Except.error.inj hh))
  | Except.error _, Except.ok _ => isFalse (fun hh => Except.noConfusion hh)
  | Except.ok _, Except.error _ => isFalse (fun hh => Except.noConfusion hh)
  | Except.ok a, Except.ok b =>
      match decEq a b with
      | isTrue h => isTrue (congrArg Except.ok h)
      | isFalse h => isFalse (fun hh => h (Except.ok.inj hh))

/-- `SwapConfig` from `src/types.ts`:
`{inputMint, outputMint, amount, slippage, isInputSol, isOutputSol}`. -/
structure SwapConfig where
  inputMint : String
  outputMint : String
  amount : Nat
  slippage : Nat
  isInputSol : Bool
  isOutputSol : Bool
deriving DecidableEq, Repr

/-- The observable part of an SPL token `Account` returned by `getAccount`:
its address and its balance in smallest units (`account.amount`). -/
structure TokenAccount where
  address : String
  amount : Nat
deriving DecidableEq, Repr

/-- The opaque quote object returned by the quote API; the source passes it
through to the build call unmodified. -/
structure Quote where
  raw : String
deriving DecidableEq, Repr

/-- One element of the build API's `data` array; `transaction` is the
base64-encoded transaction payload. -/
structure BuiltTx where
  transaction : String
deriving DecidableEq, Repr

/-- The build API response `{success, msg, data}`; `data = none` models a
missing/undefined `data` field. -/
structure BuildResp where
  success : Bool
  msg : String
  data : Option (List BuiltTx)
deriving DecidableEq, Repr

/-- The result of `connection.getParsedAccountInfo` for a mint.
`value = none` models a null `accountInfo.value`; `value = some none` models
a present value whose `parsed.info.decimals` field is missing; and
`value = some (some d)` models a successfully parsed decimal count `d`. -/
structure ParsedMintInfo where
  value : Option (Option Nat)
deriving DecidableEq, Repr

/-- The kind of transaction a broadcast or submission attempt concerns. -/
inductive TxKind where
  /-- The create-associated-token-account transaction of `createTokenAccount`. -/
  | createAccount (mint : String)
  /-- One payload of the swap's built-transaction list, sent by
  `processTransactions`. -/
  | swapPayload (payload : String)
  /-- The single SOL transfer of `sendSol`. -/
  | solTransfer
  /-- The single token-transfer transaction of `sendToken`, recording the
  smallest-unit amount transferred and whether a create-destination-account
  instruction was included. -/
  | tokenTransfer (amount : Int) (withCreate : Bool)
deriving DecidableEq, Repr

/-- Externally visible actions, recorded in order in an operation's trace. -/
inductive Event where
  /-- `connection.getBalance(owner.publicKey)`. -/
  | getBalance
  /-- `getAccount(connection, address)` for the given derived address. -/
  | accountQuery (address : String)
  /-- A transaction of the given kind was handed to the network for
  submission (it may still fail). -/
  | submitAttempt (kind : TxKind)
  /-- A transaction of the given kind was successfully broadcast. -/
  | broadcast (kind : TxKind)
  /-- The priority-fee API was queried. -/
  | feeFetch
  /-- The quote API was queried with the given query parameters. -/
  | quoteFetch (params : List (String × String))
  /-- The build API was queried. -/
  | buildFetch
  /-- `connection.getParsedAccountInfo` for the given mint. -/
  | decimalsQuery (mint : String)
  /-- The price API was queried for the given mint. -/
  | priceFetch (mint : String)
deriving DecidableEq, Repr

/-- Errors thrown by the client, one constructor per `throw` site relevant to
the modelled operations. -/
inductive Err where
  /-- `Insufficient SOL for fees` (in `validatePreSwap`). -/
  | insufficientSolForFees (availableLamports : Nat)
  /-- `Insufficient token balance` (in `validatePreSwap`). -/
  | insufficientTokenBalance (required available : Nat)
  /-- An underlying submission error rethrown unchanged (`throw error`). -/
  | submissionError (msg : String)
  /-- `Failed to get priority fee`. -/
  | feeUnavailable
  /-- `Failed to get swap quote`. -/
  | quoteUnavailable
  /-- `Failed to get swap transactions: ...` (build API failure). -/
  | buildFailed (msg : String)
  /-- `Failed to get swap transactions: ...` (missing `data` in `swap`). -/
  | noSwapData (msg : String)
  /-- `Insufficient funds` (in `sendSol`). -/
  | insufficientFundsTransfer (availableLamports : Nat)
  /-- `Failed to retrieve token decimals.` (in `sendToken`). -/
  | decimalsUnavailable
  /-- `Insufficient token balance` (in `sendToken`). -/
  | insufficientTokenForTransfer (required : Int) (available : Nat)
  /-- `getAccount` threw for the sender's token account in `sendToken`. -/
  | accountNotFound (address : String)
deriving DecidableEq, Repr

/-- The environment: one field per external collaborator, fixing the outcome
of each external call the client can make.  The environment is static — a
repeated query returns the same answer. -/
structure Env where
  /-- `connection.getBalance(owner.publicKey)`, in lamports. -/
  solBalance : Nat
  /-- `owner.publicKey.toBase58()`. -/
  walletAddress : String
  /-- `getAssociatedTokenAddress(mint, owner)`: the pure, deterministic
  derivation of the associated token address for (mint, owner address). -/
  ataOf : String → String → String
  /-- `getAccount(connection, address)`: `some` account data, or `none` when
  the call throws (account missing). -/
  accountAt : String → Option TokenAccount
  /-- Outcome of `sendAndConfirmTransaction` for the create-account
  transaction of a given mint: a signature, or an error message. -/
  createOutcome : String → Except String String
  /-- The fee API: `data.data.default.h`, or an axios failure. -/
  feeOutcome : Except Unit Nat
  /-- The quote API GET: a response body, or an axios failure. -/
  quoteOutcome : Except Unit Quote
  /-- The build API POST: a response body, or an axios failure. -/
  buildOutcome : Except Unit BuildResp
  /-- `connection.sendTransaction` outcome for a given swap payload:
  a transaction id, or an error message. -/
  sendTxOutcome : String → Except String String
  /-- `sendAndConfirmTransaction` outcome for the SOL transfer of `sendSol`. -/
  sendSolOutcome : Except String String
  /-- `sendAndConfirmTransaction` outcome for the token transfer of
  `sendToken`. -/
  sendTokenOutcome : Except String String
  /-- `connection.getParsedAccountInfo` for a mint, or a thrown exception. -/
  parsedAccountInfo : String → Except Unit ParsedMintInfo
  /-- The price API: per mint, `none` (no entry for the mint),
  `some none` (an entry without a `price` field) or `some (some p)`;
  the whole fetch may also fail. -/
  priceOutcome : Except Unit (String → Option (Option ℚ))

/-- `findAssociatedTokenAddress(mint)`: the pure derivation of the wallet's
associated token address for `mint` (delegates to `getAssociatedTokenAddress`
with the owner's public key). -/
def findAssociatedTokenAddress (env : Env) (mint : String) : String :=
  env.ataOf mint env.walletAddress

/-- `getTokenAccount(mint)`: derive the associated token address and query
it; a failing `getAccount` is caught and surfaces as `none`. -/
def getTokenAccount (env : Env) (mint : String) :
    Option TokenAccount × List Event :=
  let ata := findAssociatedTokenAddress env mint
  (env.accountAt ata, [Event.accountQuery ata])

/-- `createTokenAccount(mint)`: build the create-associated-token-account
transaction and submit it via `sendAndConfirmTransaction`.  A failure whose
message includes `"already in use"` is treated as success and the derived
address is returned; any other failure is rethrown unchanged. -/
def createTokenAccount (env : Env) (mint : String) :
    Except Err String × List Event :=
  let ata := findAssociatedTokenAddress env mint
  match env.createOutcome mint with
  | Except.ok _sig =>
      (Except.ok ata,
       [Event.submitAttempt (TxKind.createAccount mint),
        Event.broadcast (TxKind.createAccount mint)])
  | Except.error msg =>
      if includesSub msg "already in use" then
        (Except.ok ata, [Event.submitAttempt (TxKind.createAccount mint)])
      else
        (Except.error (Err.submissionError msg),
         [Event.submitAttempt (TxKind.createAccount mint)])

/-- `checkOrCreateTokenAccount(mint)`: return the existing account's address,
or create the account when the query finds none. -/
def checkOrCreateTokenAccount (env : Env) (mint : String) :
    Except Err String × List Event :=
  let q := getTokenAccount env mint
  match q.1 with
  | none =>
      let c := createTokenAccount env mint
      (c.1, q.2 ++ c.2)
  | some account => (Except.ok account.address, q.2)

/-- `getPriorityFee()`: query the fee API; any fetch error is caught and
rethrown as `Failed to get priority fee`. -/
def getPriorityFee (env : Env) : Except Err Nat × List Event :=
  match env.feeOutcome with
  | Except.ok fee => (Except.ok fee, [Event.feeFetch])
  | Except.error _ => (Except.error Err.feeUnavailable, [Event.feeFetch])

/-- The query parameters `getSwapQuote` appends to the quote GET URL, in
source order. -/
def quoteParams (config : SwapConfig) : List (String × String) :=
  [("inputMint", config.inputMint),
   ("outputMint", config.outputMint),
   ("amount", toString config.amount),
   ("slippageBps", toString (config.slippage * 100)),
   ("txVersion", txVersion)]

/-- `getSwapQuote(config)`: GET the quote API with the parameters of
`quoteParams`; any fetch error is caught and rethrown as
`Failed to get swap quote`. -/
def getSwapQuote (env : Env) (config : SwapConfig) :
    Except Err Quote × List Event :=
  match env.quoteOutcome with
  | Except.ok data => (Except.ok data, [Event.quoteFetch (quoteParams config)])
  | Except.error _ =>
      (Except.error Err.quoteUnavailable, [Event.quoteFetch (quoteParams config)])

/-- `getSwapTransactions(swapResponse, priorityFee, config)`: POST the build
API; a `success: false` response or a fetch error is rethrown as
`Failed to get swap transactions: ...`.  (The associated-token-address
derivations for the payload are pure and emit no event.) -/
def getSwapTransactions (env : Env) (_swapResponse : Quote)
    (_priorityFee : Nat) (_config : SwapConfig) :
    Except Err BuildResp × List Event :=
  match env.buildOutcome with
  | Except.ok resp =>
      if resp.success then (Except.ok resp, [Event.buildFetch])
      else
        (Except.error (Err.buildFailed
           ("Failed to get swap transactions: Swap transaction failed: "
             ++ resp.msg)),
         [Event.buildFetch])
  | Except.error _ =>
      (Except.error (Err.buildFailed "Failed to get swap transactions: "),
       [Event.buildFetch])

/-- `processTransactions(transactions)`: for each payload in array order,
deserialize, sign and send it, appending the returned transaction id; any
failure is rethrown at once, abandoning the remaining payloads. -/
def processTransactions (env : Env) :
    List String → Except Err (List String) × List Event
  | [] => (Except.ok [], [])
  | t :: ts =>
      match env.sendTxOutcome t with
      | Except.error msg =>
          (Except.error (Err.submissionError msg),
           [Event.submitAttempt (TxKind.swapPayload t)])
      | Except.ok txId =>
          let rest := processTransactions env ts
          (rest.1.map (fun ids => txId :: ids),
           Event.submitAttempt (TxKind.swapPayload t) ::
             Event.broadcast (TxKind.swapPayload t) :: rest.2)

/-- The `if (!config.isInputSol)` block of `validatePreSwap`: ensure the
input token account exists (possibly creating it), then re-query it and
compare its balance with the requested amount. -/
def inputBalanceCheck (env : Env) (config : SwapConfig) :
    Except Err Unit × List Event :=
  if config.isInputSol then (Except.ok (), [])
  else
    let c := checkOrCreateTokenAccount env config.inputMint
    match c.1 with
    | Except.error e => (Except.error e, c.2)
    | Except.ok _tokenAccount =>
        let q := getTokenAccount env config.inputMint
        match q.1 with
        | none =>
            (Except.error (Err.insufficientTokenBalance config.amount 0),
             c.2 ++ q.2)
        | some account =>
            if account.amount < config.amount then
              (Except.error (Err.insufficientTokenBalance config.amount
                 account.amount), c.2 ++ q.2)
            else (Except.ok (), c.2 ++ q.2)

/-- The `if (!config.isOutputSol)` block of `validatePreSwap`: ensure the
output token account exists (creation only, no balance check). -/
def outputAccountCheck (env : Env) (config : SwapConfig) :
    Except Err Unit × List Event :=
  if config.isOutputSol then (Except.ok (), [])
  else
    let c := checkOrCreateTokenAccount env config.outputMint
    (c.1.map (fun _ => ()), c.2)

/-- `validatePreSwap(config)`: check the SOL fee reserve, then run the
input-side balance check and the output-side account check in order. -/
def validatePreSwap (env : Env) (config : SwapConfig) :
    Except Err Unit × List Event :=
  if env.solBalance < MIN_SOL_BALANCE then
    (Except.error (Err.insufficientSolForFees env.solBalance),
     [Event.getBalance])
  else
    let ic := inputBalanceCheck env config
    match ic.1 with
    | Except.error e => (Except.error e, Event.getBalance :: ic.2)
    | Except.ok _ =>
        let oc := outputAccountCheck env config
        (oc.1, Event.getBalance :: (ic.2 ++ oc.2))

/-- `swap(config)`: validate, fetch the priority fee, fetch the quote, build
the transactions, check the response carries `data`, then submit the
payloads in order. -/
def swap (env : Env) (config : SwapConfig) :
    Except Err (List String) × List Event :=
  let v := validatePreSwap env config
  match v.1 with
  | Except.error e => (Except.error e, v.2)
  | Except.ok _ =>
    let f := getPriorityFee env
    match f.1 with
    | Except.error e => (Except.error e, v.2 ++ f.2)
    | Except.ok priorityFee =>
      let q := getSwapQuote env config
      match q.1 with
      | Except.error e => (Except.error e, v.2 ++ f.2 ++ q.2)
      | Except.ok swapQuote =>
        let b := getSwapTransactions env swapQuote priorityFee config
        match b.1 with
        | Except.error e => (Except.error e, v.2 ++ f.2 ++ q.2 ++ b.2)
        | Except.ok swapTxs =>
          match swapTxs.data with
          | none =>
              (Except.error (Err.noSwapData swapTxs.msg),
               v.2 ++ f.2 ++ q.2 ++ b.2)
          | some txs =>
              let p := processTransactions env (txs.map BuiltTx.transaction)
              (p.1, v.2 ++ f.2 ++ q.2 ++ b.2 ++ p.2)

/-- `getTokenPrice(mint)`: query the price API and return
`response.data.data[mint]?.price || 0`; any fetch error is caught and `0` is
returned, so the operation never throws. -/
def getTokenPrice (env : Env) (mint : String) : ℚ × List Event :=
  match env.priceOutcome with
  | Except.error _ => (0, [Event.priceFetch mint])
  | Except.ok dataMap =>
      match dataMap mint with
      | none => (0, [Event.priceFetch mint])
      | some none => (0, [Event.priceFetch mint])
      | some (some p) => (if p = 0 then 0 else p, [Event.priceFetch mint])

/-- `getTokenDecimals(mintAddress)`: parse the mint account's decimal count;
each failure mode (fetch threw, null value, missing `decimals` field) is
caught and the sentinel `-1` is returned, so the operation never throws. -/
def getTokenDecimals (env : Env) (mintAddress : String) : Int × List Event :=
  match env.parsedAccountInfo mintAddress with
  | Except.error _ => (-1, [Event.decimalsQuery mintAddress])
  | Except.ok info =>
      match info.value with
      | none => (-1, [Event.decimalsQuery mintAddress])
      | some none => (-1, [Event.decimalsQuery mintAddress])
      | some (some d) => ((d : Int), [Event.decimalsQuery mintAddress])

/-- The state of the price poller: the `priceSubscriptions` map as an
insertion-ordered association list from mint to timer handle, plus a counter
standing in for fresh `setInterval` handles. -/
structure PollState where
  subs : List (String × Nat)
  nextTimer : Nat
deriving DecidableEq, Repr

/-- `this.priceSubscriptions.has(mint)`. -/
def PollState.hasSub (s : PollState) (mint : String) : Bool :=
  s.subs.any (fun p => p.1 == mint)

/-- `subscribeToPrice(mint, callback, interval)`: if a subscription for
`mint` already exists, log and return without creating a timer; otherwise
start a fresh interval timer and register it under `mint`. -/
def subscribeToPrice (s : PollState) (mint : String) : PollState :=
  if s.hasSub mint then s
  else { subs := s.subs ++ [(mint, s.nextTimer)], nextTimer := s.nextTimer + 1 }

/-- `unsubscribeFromPrice(mint)`: if a timer is registered for `mint`, clear
it and delete the registry entry; otherwise log and change nothing. -/
def unsubscribeFromPrice (s : PollState) (mint : String) : PollState :=
  if s.hasSub mint then
    { s with subs := s.subs.filter (fun p => p.1 != mint) }
  else s

/-- `sendSol(destination, amount)`: convert SOL to lamports with
`Math.round`, fail when the balance does not cover the amount plus the fee
reserve, otherwise submit a single transfer via `sendAndConfirmTransaction`
and return its signature. -/
def sendSol (env : Env) (_destination : String) (amount : ℚ) :
    Except Err String × List Event :=
  let lamports : Int := jsRound (amount * LAMPORTS_PER_SOL)
  if (env.solBalance : Int) < lamports + (MIN_SOL_BALANCE : Int) then
    (Except.error (Err.insufficientFundsTransfer env.solBalance),
     [Event.getBalance])
  else
    match env.sendSolOutcome with
    | Except.ok sig =>
        (Except.ok sig,
         [Event.getBalance, Event.submitAttempt TxKind.solTransfer,
          Event.broadcast TxKind.solTransfer])
    | Except.error msg =>
        (Except.error (Err.submissionError msg),
         [Event.getBalance, Event.submitAttempt TxKind.solTransfer])

/-- The amount conversion of `sendToken`:
`BigInt(Math.round(amount * Math.pow(10, decimals)))`. -/
def sendTokenAmount (decimals : Int) (amount : ℚ) : Int :=
  jsRound (amount * (10 : ℚ) ^ decimals.toNat)

/-- `sendToken(destination, mint, amount)`: resolve the token's decimals
(failing on the `-1` sentinel), convert the amount to smallest units, check
the sender's token-account balance, optionally include a create instruction
for the destination's token account, then submit the single transfer
transaction and return its signature. -/
def sendToken (env : Env) (destination mint : String) (amount : ℚ) :
    Except Err String × List Event :=
  let d := getTokenDecimals env mint
  let decimals := d.1
  if decimals < 0 then
    (Except.error Err.decimalsUnavailable, d.2)
  else
    let tokenAmount : Int := sendTokenAmount decimals amount
    let senderTokenAccount := findAssociatedTokenAddress env mint
    match env.accountAt senderTokenAccount with
    | none =>
        (Except.error (Err.accountNotFound senderTokenAccount),
         d.2 ++ [Event.accountQuery senderTokenAccount])
    | some info =>
        if (info.amount : Int) < tokenAmount then
          (Except.error (Err.insufficientTokenForTransfer tokenAmount
             info.amount),
           d.2 ++ [Event.accountQuery senderTokenAccount])
        else
          let destinationTokenAccount := env.ataOf mint destination
          let withCreate := (env.accountAt destinationTokenAccount).isNone
          match env.sendTokenOutcome with
          | Except.ok sig =>
              (Except.ok sig,
               d.2 ++ [Event.accountQuery senderTokenAccount,
                 Event.accountQuery destinationTokenAccount,
                 Event.submitAttempt (TxKind.tokenTransfer tokenAmount withCreate),
                 Event.broadcast (TxKind.tokenTransfer tokenAmount withCreate)])
          | Except.error msg =>
              (Except.error (Err.submissionError msg),
               d.2 ++ [Event.accountQuery senderTokenAccount,
                 Event.accountQuery destinationTokenAccount,
                 Event.submitAttempt (TxKind.tokenTransfer tokenAmount withCreate)])

/-- The kinds of the transactions successfully broadcast in a trace. -/
def broadcastsOf (tr : List Event) : List TxKind :=
  tr.filterMap (fun ev =>
    match ev with
    | Event.broadcast k => some k
    | _ => none)

/-- The swap payloads handed to the network for submission, in trace order. -/
def attemptedPayloads (tr : List Event) : List String :=
  tr.filterMap (fun ev =>
    match ev with
    | Event.submitAttempt (TxKind.swapPayload t) => some t
    | _ => none)

/-- The smallest-unit amounts of the token transfers handed to the network
for submission, in trace order. -/
def transferAmounts (tr : List Event) : List Int :=
  tr.filterMap (fun ev =>
    match ev with
    | Event.submitAttempt (TxKind.tokenTransfer a _) => some a
    | _ => none)

/-- The transaction id a successful submission of payload `t` returns
(meaningful when `env.sendTxOutcome t` succeeds). -/
def okId (env : Env) (t : String) : String :=
  match env.sendTxOutcome t with
  | Except.ok s => s
  | Except.error _ => ""

/-- A concrete default environment used to instantiate theorems: the wallet
holds 0.02 SOL, no token account exists yet, and every external call
succeeds. -/
def baseEnv : Env where
  solBalance := 20000000
  walletAddress := "W"
  ataOf := fun mint owner => "ata:" ++ mint ++ ":" ++ owner
  accountAt := fun _ => none
  createOutcome := fun _ => Except.ok "createSig"
  feeOutcome := Except.ok 100
  quoteOutcome := Except.ok ⟨"quote"⟩
  buildOutcome := Except.ok ⟨true, "", some [⟨"payload0"⟩, ⟨"payload1"⟩]⟩
  sendTxOutcome := fun t => Except.ok ("id:" ++ t)
  sendSolOutcome := Except.ok "solSig"
  sendTokenOutcome := Except.ok "tokenSig"
  parsedAccountInfo := fun _ => Except.ok ⟨some (some 6)⟩
  priceOutcome := Except.error ()

/-- The swap request of the repository's own example and test files:
1 USDC into SOL with 1% slippage. -/
def cfgUSDCtoSOL : SwapConfig where
  inputMint := "USDC"
  outputMint := "SOL"
  amount := 1000000
  slippage := 1
  isInputSol := false
  isOutputSol := true

/-- Environment for the C1 counterexample: identical to `baseEnv` — the
input token account is absent, so validation itself creates it. -/
def envC1 : Env := baseEnv

/-- Environment with too little SOL for the fee reserve. -/
def envC4 : Env := { baseEnv with solBalance := 5 }

/-- Environment whose create-account submission fails with an
"already in use" message. -/
def envC3a : Env :=
  { baseEnv with createOutcome := fun _ => Except.error "account already in use" }

/-- Environment whose create-account submission fails for another reason. -/
def envC3b : Env :=
  { baseEnv with createOutcome := fun _ => Except.error "blockhash expired" }

/-- Environment for the C2 witness: every payload submission succeeds. -/
def envC2 : Env := baseEnv

/-- Environment for the C2 witness whose payload `"bad"` fails to submit. -/
def envC2bad : Env :=
  { baseEnv with sendTxOutcome := fun t =>
      if t == "bad" then Except.error "boom" else Except.ok ("id:" ++ t) }

/-- A poller registry holding a single subscription for `"USDC"`. -/
def pollC7 : PollState where
  subs := [("USDC", 0)]
  nextTimer := 1

/-- Environment for the C6 witness. -/
def envC6 : Env := baseEnv

/-- Environment for the C8 witness: the sender holds 2.0 units of the
6-decimal token. -/
def envC8 : Env :=
  { baseEnv with accountAt := fun _ => some ⟨"sta", 2000000⟩ }

/-- A price-API table: mint `"X"` has price 5, mint `"Y"` has an entry
without a price, and no other mint has an entry. -/
def priceTableC9 : String → Option (Option ℚ) := fun m =>
  if m == "X" then some (some 5) else if m == "Y" then some none else none

/-- Environment for the C9 witness, serving `priceTableC9`. -/
def envC9 : Env := { baseEnv with priceOutcome := Except.ok priceTableC9 }

/-- Environment for the C9/C10 witnesses whose fetches throw. -/
def envFail : Env :=
  { baseEnv with priceOutcome := Except.error ()
                 parsedAccountInfo := fun _ => Except.error () }

/-- Environment for the C10 witness: the parsed account info is present but
carries no `decimals` field. -/
def envC10 : Env :=
  { baseEnv with parsedAccountInfo := fun _ => Except.ok ⟨some none⟩ }

/-- Environment for the C10 witness: the parsed account info has a null
value. -/
def envC10b : Env :=
  { baseEnv with parsedAccountInfo := fun _ => Except.ok ⟨none⟩ }

/-! ## Theorems -/

/-- **C4**: for every swap request, if the wallet's SOL balance is below the
fixed fee reserve of 10,000,000 lamports, `swap` fails with the
insufficient-funds error and its trace is just the balance read — in
particular no fee-fetch, quote-fetch, build call or broadcast happened. -/
theorem swap_insufficient_sol_before_any_call (env : Env) (config : SwapConfig)
    (h : env.solBalance < MIN_SOL_BALANCE) :
    swap env config =
      (Except.error (Err.insufficientSolForFees env.solBalance),
       [Event.getBalance])
    ∧ Event.feeFetch ∉ (swap env config).2
    ∧ (∀ ps, Event.quoteFetch ps ∉ (swap env config).2)
    ∧ Event.buildFetch ∉ (swap env config).2
    ∧ (∀ k, Event.broadcast k ∉ (swap env config).2) := by
  have hswap : swap env config =
      (Except.error (Err.insufficientSolForFees env.solBalance),
       [Event.getBalance]) := by
    simp [swap, validatePreSwap, h]
  refine ⟨hswap, ?_, ?_, ?_, ?_⟩ <;> simp [hswap]

/-- Closed witness for `swap_insufficient_sol_before_any_call` at a wallet
holding 5 lamports. -/
theorem swap_insufficient_sol_before_any_call_witness :
    envC4.solBalance < MIN_SOL_BALANCE ∧
      swap envC4 cfgUSDCtoSOL =
        (Except.error (Err.insufficientSolForFees 5), [Event.getBalance]) :=
  ⟨by decide,
   (swap_insufficient_sol_before_any_call envC4 cfgUSDCtoSOL (by decide)).1⟩

/-- **C5**: for every swap request, the quote fetch issues a GET whose query
parameters are exactly the request's input mint, output mint, amount, the
request's slippage converted to basis points (`slippage * 100`), and the
transaction-format version — in that order. -/
theorem quote_fetch_query_params (env : Env) (config : SwapConfig) :
    (getSwapQuote env config).2 =
      [Event.quoteFetch
        [("inputMint", config.inputMint),
         ("outputMint", config.outputMint),
         ("amount", toString config.amount),
         ("slippageBps", toString (config.slippage * 100)),
         ("txVersion", txVersion)]] := by
  unfold getSwapQuote quoteParams
  cases env.quoteOutcome <;> rfl

/-- Any broadcast in the trace of `checkOrCreateTokenAccount` is the
create-account transaction of the requested mint. -/
theorem mem_broadcast_checkOrCreate (env : Env) (mint : String) (k : TxKind)
    (hk : Event.broadcast k ∈ (checkOrCreateTokenAccount env mint).2) :
    k = TxKind.createAccount mint := by
  simp only [checkOrCreateTokenAccount, getTokenAccount, createTokenAccount] at hk
  rcases hA : env.accountAt (findAssociatedTokenAddress env mint) with _ | a
  · rw [hA] at hk
    rcases hC : env.createOutcome mint with msg | s
    · rw [hC] at hk
      by_cases hin : includesSub msg "already in use" <;> simp [hin] at hk
    · rw [hC] at hk
      simp at hk
      exact hk
  · rw [hA] at hk
    simp at hk

/-- Any broadcast in the trace of the input-side validation block is the
create-account transaction of the input mint. -/
theorem mem_broadcast_inputCheck (env : Env) (config : SwapConfig) (k : TxKind)
    (hk : Event.broadcast k ∈ (inputBalanceCheck env config).2) :
    k = TxKind.createAccount config.inputMint := by
  simp only [inputBalanceCheck] at hk
  split at hk
  · simp at hk
  · split at hk
    · exact mem_broadcast_checkOrCreate env config.inputMint k hk
    · split at hk
      · rcases List.mem_append.mp hk with h | h
        · exact mem_broadcast_checkOrCreate env config.inputMint k h
        · simp [getTokenAccount] at h
      · split at hk
        · rcases List.mem_append.mp hk with h | h
          · exact mem_broadcast_checkOrCreate env config.inputMint k h
          · simp [getTokenAccount] at h
        · rcases List.mem_append.mp hk with h | h
          · exact mem_broadcast_checkOrCreate env config.inputMint k h
          · simp [getTokenAccount] at h

/-- Any broadcast in the trace of the output-side validation block is the
create-account transaction of the output mint. -/
theorem mem_broadcast_outputCheck (env : Env) (config : SwapConfig) (k : TxKind)
    (hk : Event.broadcast k ∈ (outputAccountCheck env config).2) :
    k = TxKind.createAccount config.outputMint := by
  simp only [outputAccountCheck] at hk
  split at hk
  · simp at hk
  · exact mem_broadcast_checkOrCreate env config.outputMint k hk

/-- The only error `checkOrCreateTokenAccount` can raise is a rethrown
submission error. -/
theorem checkOrCreate_error_shape (env : Env) (mint : String) (e : Err)
    (he : (checkOrCreateTokenAccount env mint).1 = Except.error e) :
    ∃ msg, e = Err.submissionError msg := by
  simp only [checkOrCreateTokenAccount, getTokenAccount, createTokenAccount] at he
  split at he
  · split at he
    · simp at he
    · split at he
      · simp at he
      · simp only [Except.error.injEq] at he
        exact ⟨_, he.symm⟩
  · simp at he

/-- The input-side validation block only raises rethrown submission errors
or the insufficient-token-balance error — never the insufficient-SOL
error. -/
theorem inputCheck_error_shape (env : Env) (config : SwapConfig) (e : Err)
    (he : (inputBalanceCheck env config).1 = Except.error e) :
    (∃ msg, e = Err.submissionError msg) ∨
      (∃ r a, e = Err.insufficientTokenBalance r a) := by
  simp only [inputBalanceCheck] at he
  split at he
  · simp at he
  · split at he
    · rename_i e' heq
      simp only [Except.error.injEq] at he
      subst he
      exact Or.inl (checkOrCreate_error_shape env config.inputMint e' heq)
    · split at he
      · simp only [Except.error.injEq] at he
        exact Or.inr ⟨_, _, he.symm⟩
      · split at he
        · simp only [Except.error.injEq] at he
          exact Or.inr ⟨_, _, he.symm⟩
        · simp at he

/-- The output-side validation block only raises rethrown submission
errors. -/
theorem outputCheck_error_shape (env : Env) (config : SwapConfig) (e : Err)
    (he : (outputAccountCheck env config).1 = Except.error e) :
    ∃ msg, e = Err.submissionError msg := by
  simp only [outputAccountCheck] at he
  split at he
  · simp at he
  · rcases hC : (checkOrCreateTokenAccount env config.outputMint).1 with e' | v
    · rw [hC] at he
      simp only [Except.map, Except.error.injEq] at he
      subst he
      exact checkOrCreate_error_shape env config.outputMint _ hC
    · rw [hC] at he
      simp [Except.map] at he

/-- **C1 (amended)**: when validation (step 1) fails, `swap` rethrows the
validation error and performs nothing further; any transaction broadcast by
that point is a create-account transaction of the validation step itself
(never a swap payload), and when the error is the insufficient-native-balance
error the trace is just the balance read, so nothing at all was broadcast.
(The claim as stated is refuted by `validation_error_after_broadcast_cex`:
the insufficient-token-balance error can occur after validation has
broadcast a create-account transaction.) -/
theorem validation_errors_swap_broadcast_free (env : Env) (config : SwapConfig)
    (e : Err) (herr : (validatePreSwap env config).1 = Except.error e) :
    swap env config = (Except.error e, (validatePreSwap env config).2)
    ∧ (∀ k, Event.broadcast k ∈ (validatePreSwap env config).2 →
        k = TxKind.createAccount config.inputMint ∨
        k = TxKind.createAccount config.outputMint)
    ∧ (∀ bal, e = Err.insufficientSolForFees bal →
        (validatePreSwap env config).2 = [Event.getBalance]) := by
  refine ⟨?_, ?_, ?_⟩
  · simp only [swap]
    rw [herr]
  · intro k hk
    simp only [validatePreSwap] at hk
    split at hk
    · simp at hk
    · split at hk
      · rcases List.mem_cons.mp hk with h | h
        · simp at h
        · exact Or.inl (mem_broadcast_inputCheck env config k h)
      · rcases List.mem_cons.mp hk with h | h
        · simp at h
        · rcases List.mem_append.mp h with h2 | h2
          · exact Or.inl (mem_broadcast_inputCheck env config k h2)
          · exact Or.inr (mem_broadcast_outputCheck env config k h2)
  · intro bal hbal
    subst hbal
    by_cases hsol : env.solBalance < MIN_SOL_BALANCE
    · simp [validatePreSwap, hsol]
    · exfalso
      simp only [validatePreSwap, if_neg hsol] at herr
      split at herr
      · rename_i e' heq
        simp only [Except.error.injEq] at herr
        subst herr
        rcases inputCheck_error_shape env config _ heq with ⟨msg, h⟩ | ⟨r, a, h⟩ <;>
          simp at h
      · rcases outputCheck_error_shape env config _ herr with ⟨msg, h⟩
        simp at h

/-- **C1 counterexample**: with 0.02 SOL, a non-SOL input whose token
account does not exist yet, and a successful create-account submission, the
swap call raises the insufficient-token-balance validation error *after*
broadcasting the create-account transaction — so the claim that validation
errors always precede any broadcast is false on the code. -/
theorem validation_error_after_broadcast_cex :
    (swap envC1 cfgUSDCtoSOL).1 =
      Except.error (Err.insufficientTokenBalance 1000000 0)
    ∧ Event.broadcast (TxKind.createAccount "USDC") ∈
        (swap envC1 cfgUSDCtoSOL).2 := by
  decide

/-- Closed witness for `validation_errors_swap_broadcast_free`: the
token-balance failure at `envC1`, and the SOL-reserve failure at `envC4`
whose validation trace is exactly the balance read. -/
theorem validation_errors_swap_broadcast_free_witness :
    swap envC1 cfgUSDCtoSOL =
      (Except.error (Err.insufficientTokenBalance 1000000 0),
       (validatePreSwap envC1 cfgUSDCtoSOL).2)
    ∧ (validatePreSwap envC4 cfgUSDCtoSOL).2 = [Event.getBalance] :=
  ⟨(validation_errors_swap_broadcast_free envC1 cfgUSDCtoSOL
      (Err.insufficientTokenBalance 1000000 0) (by decide)).1,
   (validation_errors_swap_broadcast_free envC4 cfgUSDCtoSOL
      (Err.insufficientSolForFees 5) (by decide)).2.2 5 rfl⟩

/-- A successful `Except` holds a value. -/
theorem isOk_exists {ε α : Type} (x : Except ε α) (h : x.isOk = true) :
    ∃ a, x = Except.ok a := by
  cases x with
  | ok a => exact ⟨a, rfl⟩
  | error e => simp [Except.isOk, Except.toBool] at h

/-- A submission attempt of a swap payload heads the attempted-payload
listing of a trace. -/
theorem attemptedPayloads_submit_cons (t : String) (tr : List Event) :
    attemptedPayloads (Event.submitAttempt (TxKind.swapPayload t) :: tr) =
      t :: attemptedPayloads tr := rfl

/-- A broadcast event contributes nothing to the attempted-payload listing
of a trace. -/
theorem attemptedPayloads_broadcast_cons (k : TxKind) (tr : List Event) :
    attemptedPayloads (Event.broadcast k :: tr) = attemptedPayloads tr := rfl

/-- **C2**: `processTransactions` submits the built payloads strictly in
array order.  When every payload submits successfully it returns the
identifier of each payload, one per payload in submission order, and every
payload was handed to the network.  When a payload fails to submit (here:
the first failing one, after a successful prefix), the submission error is
propagated, no identifier list is returned, and only the payloads up to and
including the failing one were handed to the network — the rest were never
submitted. -/
theorem submit_in_order_abort_on_failure (env : Env) :
    (∀ txs : List String, (∀ t ∈ txs, (env.sendTxOutcome t).isOk = true) →
        (processTransactions env txs).1 = Except.ok (txs.map (okId env))
        ∧ attemptedPayloads (processTransactions env txs).2 = txs)
    ∧ (∀ pre t post msg, (∀ p ∈ pre, (env.sendTxOutcome p).isOk = true) →
        env.sendTxOutcome t = Except.error msg →
        (processTransactions env (pre ++ t :: post)).1 =
            Except.error (Err.submissionError msg)
        ∧ attemptedPayloads (processTransactions env (pre ++ t :: post)).2 =
            pre ++ [t]) := by
  constructor
  · intro txs
    induction txs with
    | nil => intro _; exact ⟨rfl, rfl⟩
    | cons t ts ih =>
        intro h
        have ht : (env.sendTxOutcome t).isOk = true := h t (List.mem_cons_self t ts)
        obtain ⟨s, hs⟩ := isOk_exists _ ht
        obtain ⟨ih1, ih2⟩ := ih (fun p hp => h p (List.mem_cons_of_mem t hp))
        constructor
        · simp [processTransactions, hs, ih1, okId, Except.map, List.map_cons]
        · simp [processTransactions, hs, attemptedPayloads_submit_cons,
            attemptedPayloads_broadcast_cons, ih2]
  · intro pre
    induction pre with
    | nil =>
        intro t post msg _ hfail
        constructor
        · simp [processTransactions, hfail]
        · simp [processTransactions, hfail, attemptedPayloads_submit_cons]
          rfl
    | cons p ps ih =>
        intro t post msg hpre hfail
        have hp : (env.sendTxOutcome p).isOk = true :=
          hpre p (List.mem_cons_self p ps)
        obtain ⟨s, hs⟩ := isOk_exists _ hp
        obtain ⟨ih1, ih2⟩ :=
          ih t post msg (fun x hx => hpre x (List.mem_cons_of_mem p hx)) hfail
        constructor
        · simp [processTransactions, hs, ih1, Except.map]
        · simp [processTransactions, hs, attemptedPayloads_submit_cons,
            attemptedPayloads_broadcast_cons, ih2]

/-- Closed witness for `submit_in_order_abort_on_failure`: a two-payload
success in order, and a three-payload run aborting at the second. -/
theorem submit_in_order_abort_on_failure_witness :
    ((processTransactions envC2 ["a", "b"]).1 = Except.ok ["id:a", "id:b"]
      ∧ attemptedPayloads (processTransactions envC2 ["a", "b"]).2 = ["a", "b"])
    ∧ ((processTransactions envC2bad ["a", "bad", "c"]).1 =
          Except.error (Err.submissionError "boom")
      ∧ attemptedPayloads (processTransactions envC2bad ["a", "bad", "c"]).2 =
          ["a", "bad"]) :=
  ⟨(submit_in_order_abort_on_failure envC2).1 ["a", "b"] (by decide),
   (submit_in_order_abort_on_failure envC2bad).2 ["a"] "bad" ["c"] "boom"
     (by decide) (by decide)⟩

/-- **C3**: when the token account is absent and the create-account
submission fails, `checkOrCreateTokenAccount` returns the derived
associated-token address without raising (and without having broadcast
anything) if the failure message includes "already in use", and surfaces
any other submission failure unchanged to the caller. -/
theorem ensure_account_idempotent_or_reraise (env : Env) (mint msg : String)
    (habs : env.accountAt (findAssociatedTokenAddress env mint) = none)
    (hfail : env.createOutcome mint = Except.error msg) :
    (includesSub msg "already in use" = true →
      (checkOrCreateTokenAccount env mint).1 =
        Except.ok (findAssociatedTokenAddress env mint)
      ∧ broadcastsOf (checkOrCreateTokenAccount env mint).2 = [])
    ∧ (includesSub msg "already in use" = false →
      (checkOrCreateTokenAccount env mint).1 =
        Except.error (Err.submissionError msg)) := by
  constructor
  · intro hin
    constructor <;>
      simp [checkOrCreateTokenAccount, getTokenAccount, createTokenAccount,
        habs, hfail, hin, broadcastsOf]
  · intro hout
    simp [checkOrCreateTokenAccount, getTokenAccount, createTokenAccount,
      habs, hfail, hout]

/-- Closed witness for `ensure_account_idempotent_or_reraise`: an
"already in use" failure resolves to the derived address, while a
"blockhash expired" failure is re-raised unchanged. -/
theorem ensure_account_idempotent_or_reraise_witness :
    ((checkOrCreateTokenAccount envC3a "USDC").1 = Except.ok "ata:USDC:W"
      ∧ broadcastsOf (checkOrCreateTokenAccount envC3a "USDC").2 = [])
    ∧ (checkOrCreateTokenAccount envC3b "USDC").1 =
        Except.error (Err.submissionError "blockhash expired") :=
  ⟨(ensure_account_idempotent_or_reraise envC3a "USDC" "account already in use"
      (by decide) (by decide)).1 (by decide),
   (ensure_account_idempotent_or_reraise envC3b "USDC" "blockhash expired"
      (by decide) (by decide)).2 (by decide)⟩

/-- **C6**: `sendSol` fails with the insufficient-funds error and
broadcasts nothing when the balance is below the rounded lamport amount
plus the 10,000,000-lamport fee reserve; otherwise (and when the network
accepts it) it submits exactly one transfer, waits for confirmation, and
returns its signature. -/
theorem send_native_reserve_policy (env : Env) (dest : String) (amount : ℚ) :
    ((env.solBalance : Int) <
        jsRound (amount * LAMPORTS_PER_SOL) + (MIN_SOL_BALANCE : Int) →
      sendSol env dest amount =
        (Except.error (Err.insufficientFundsTransfer env.solBalance),
         [Event.getBalance]))
    ∧ (∀ sig,
        ¬ (env.solBalance : Int) <
            jsRound (amount * LAMPORTS_PER_SOL) + (MIN_SOL_BALANCE : Int) →
        env.sendSolOutcome = Except.ok sig →
        sendSol env dest amount =
          (Except.ok sig,
           [Event.getBalance, Event.submitAttempt TxKind.solTransfer,
            Event.broadcast TxKind.solTransfer])) := by
  constructor
  · intro h
    simp [sendSol, h]
  · intro sig h hs
    simp [sendSol, h, hs]

/-- Closed witness for `send_native_reserve_policy`: on a 0.02-SOL wallet,
sending 1 SOL fails without a broadcast and sending 0.001 SOL broadcasts
exactly one transfer. -/
theorem send_native_reserve_policy_witness :
    sendSol envC6 "dest" 1 =
      (Except.error (Err.insufficientFundsTransfer 20000000),
       [Event.getBalance])
    ∧ sendSol envC6 "dest" (1/1000) =
        (Except.ok "solSig",
         [Event.getBalance, Event.submitAttempt TxKind.solTransfer,
          Event.broadcast TxKind.solTransfer]) :=
  ⟨(send_native_reserve_policy envC6 "dest" 1).1 (by
      have h : jsRound (1 * LAMPORTS_PER_SOL) = 1000000000 := by
        unfold jsRound LAMPORTS_PER_SOL
        rw [Int.floor_eq_iff]
        norm_num
      rw [h]
      decide),
   (send_native_reserve_policy envC6 "dest" (1/1000)).2 "solSig" (by
      have h : jsRound ((1/1000) * LAMPORTS_PER_SOL) = 1000000 := by
        unfold jsRound LAMPORTS_PER_SOL
        rw [Int.floor_eq_iff]
        norm_num
      rw [h]
      decide) rfl⟩

/-- **C7**: the subscription registry keeps at most one entry per mint:
distinctness of registered mints is preserved by both operations,
`subscribeToPrice` is a no-op (no second timer is created) when a
subscription for the mint already exists, and `unsubscribeFromPrice` on a
mint with no subscription changes nothing and raises no error. -/
theorem price_subscription_registry_unique (s : PollState) (mint : String)
    (hnodup : (s.subs.map Prod.fst).Nodup) :
    ((subscribeToPrice s mint).subs.map Prod.fst).Nodup
    ∧ ((unsubscribeFromPrice s mint).subs.map Prod.fst).Nodup
    ∧ (s.hasSub mint = true → subscribeToPrice s mint = s)
    ∧ (s.hasSub mint = false → unsubscribeFromPrice s mint = s) := by
  refine ⟨?_, ?_, ?_, ?_⟩
  · by_cases h : s.hasSub mint
    · simp [subscribeToPrice, h, hnodup]
    · simp only [subscribeToPrice, h, if_false, Bool.false_eq_true]
      rw [List.map_append]
      refine List.Nodup.append hnodup (by simp) ?_
      intro a ha hb
      simp only [List.map_cons, List.map_nil, List.mem_singleton] at hb
      subst hb
      rcases List.mem_map.mp ha with ⟨p, hp, hfst⟩
      exact h (List.any_eq_true.mpr ⟨p, hp, by simp [hfst]⟩)
  · by_cases h : s.hasSub mint
    · simp only [unsubscribeFromPrice, h, if_true]
      exact hnodup.sublist (List.Sublist.map Prod.fst (List.filter_sublist _))
    · simp [unsubscribeFromPrice, h, hnodup]
  · intro h
    simp [subscribeToPrice, h]
  · intro h
    simp [unsubscribeFromPrice, h]

/-- Closed witness for `price_subscription_registry_unique`: on a registry
holding `"USDC"`, a second subscribe to `"USDC"` is a no-op and an
unsubscribe from `"SOL"` is a no-op. -/
theorem price_subscription_registry_unique_witness :
    ((subscribeToPrice pollC7 "USDC").subs.map Prod.fst).Nodup
    ∧ subscribeToPrice pollC7 "USDC" = pollC7
    ∧ unsubscribeFromPrice pollC7 "SOL" = pollC7 :=
  ⟨(price_subscription_registry_unique pollC7 "USDC" (by decide)).1,
   (price_subscription_registry_unique pollC7 "USDC" (by decide)).2.2.1
     (by decide),
   (price_subscription_registry_unique pollC7 "SOL" (by decide)).2.2.2
     (by decide)⟩

/-- `getTokenDecimals` performs exactly one metadata query in every case. -/
theorem getTokenDecimals_trace (env : Env) (mint : String) :
    (getTokenDecimals env mint).2 = [Event.decimalsQuery mint] := by
  unfold getTokenDecimals
  rcases env.parsedAccountInfo mint with e | info
  · rfl
  · rcases info with ⟨_ | (_ | d)⟩ <;> rfl

/-- **C8**: `sendToken` converts the human-readable amount by rounding
`amount * 10 ^ decimals`: with 6 decimals and sufficient balance, the
single submitted transfer carries exactly `⌊amount * 10^6 + 1/2⌋` smallest
units — and for amount 3/2 that is exactly 1,500,000. -/
theorem send_token_amount_is_rounded (env : Env) (dest mint : String)
    (amount : ℚ) (h6 : (getTokenDecimals env mint).1 = 6)
    (info : TokenAccount)
    (hacct : env.accountAt (findAssociatedTokenAddress env mint) = some info)
    (hbal : sendTokenAmount 6 amount ≤ (info.amount : Int)) :
    transferAmounts (sendToken env dest mint amount).2 =
      [jsRound (amount * 10 ^ 6)]
    ∧ sendTokenAmount 6 (3/2) = 1500000 := by
  constructor
  · have htr := getTokenDecimals_trace env mint
    have hbal2 : jsRound (amount * 10 ^ 6) ≤ (info.amount : Int) := by
      simpa [sendTokenAmount, show Int.toNat 6 = 6 from rfl] using hbal
    rcases hS : env.sendTokenOutcome with msg | sig <;>
      simp [sendToken, h6, htr, hacct, hS, not_lt.mpr hbal2, transferAmounts,
        sendTokenAmount, show Int.toNat 6 = 6 from rfl]
  · unfold sendTokenAmount jsRound
    rw [show Int.toNat 6 = 6 from rfl, Int.floor_eq_iff]
    norm_num

/-- Closed witness for `send_token_amount_is_rounded`: sending 1.5 units of
a 6-decimal token transfers exactly 1,500,000 smallest units. -/
theorem send_token_amount_is_rounded_witness :
    transferAmounts (sendToken envC8 "dest" "USDC" (3/2)).2 =
      [jsRound ((3/2) * 10 ^ 6)]
    ∧ sendTokenAmount 6 (3/2) = 1500000 :=
  send_token_amount_is_rounded envC8 "dest" "USDC" (3/2) rfl
    ⟨"sta", 2000000⟩ rfl
    (by
      have h : sendTokenAmount 6 (3/2) = 1500000 := by
        unfold sendTokenAmount jsRound
        rw [show Int.toNat 6 = 6 from rfl, Int.floor_eq_iff]
        norm_num
      rw [h]
      decide)

/-- **C9**: `getTokenPrice` never raises — by construction it returns a
plain rational in every case — and it returns the fetched price when the
response has a priced entry for the mint, and 0 when the fetch fails, when
the response has no entry for the mint, or when the entry lacks a price. -/
theorem get_token_price_never_throws (env : Env) (mint : String) :
    (env.priceOutcome = Except.error () → (getTokenPrice env mint).1 = 0)
    ∧ (∀ f, env.priceOutcome = Except.ok f → f mint = none →
        (getTokenPrice env mint).1 = 0)
    ∧ (∀ f, env.priceOutcome = Except.ok f → f mint = some none →
        (getTokenPrice env mint).1 = 0)
    ∧ (∀ f p, env.priceOutcome = Except.ok f → f mint = some (some p) →
        (getTokenPrice env mint).1 = p) := by
  refine ⟨?_, ?_, ?_, ?_⟩
  · intro h; simp [getTokenPrice, h]
  · intro f h hf; simp [getTokenPrice, h, hf]
  · intro f h hf; simp [getTokenPrice, h, hf]
  · intro f p h hf
    simp only [getTokenPrice, h, hf]
    split <;> simp_all

/-- Closed witness for `get_token_price_never_throws`, covering all four
cases of the price table. -/
theorem get_token_price_never_throws_witness :
    (getTokenPrice envFail "X").1 = 0
    ∧ (getTokenPrice envC9 "Z").1 = 0
    ∧ (getTokenPrice envC9 "Y").1 = 0
    ∧ (getTokenPrice envC9 "X").1 = 5 :=
  ⟨(get_token_price_never_throws envFail "X").1 rfl,
   (get_token_price_never_throws envC9 "Z").2.1 priceTableC9 rfl rfl,
   (get_token_price_never_throws envC9 "Y").2.2.1 priceTableC9 rfl rfl,
   (get_token_price_never_throws envC9 "X").2.2.2 priceTableC9 5 rfl rfl⟩

/-- **C10**: `getTokenDecimals` never raises — by construction it returns a
plain integer — returning the sentinel `-1` on every failure mode (a thrown
fetch, a null account value, a missing `decimals` field) and the parsed
decimals otherwise; and `sendToken` treats a negative decimals result as a
failure, aborting before any conversion, balance query or broadcast. -/
theorem get_token_decimals_sentinel (env : Env) (mint : String) :
    ((env.parsedAccountInfo mint = Except.error () →
        (getTokenDecimals env mint).1 = -1)
     ∧ (∀ info, env.parsedAccountInfo mint = Except.ok info →
          info.value = none → (getTokenDecimals env mint).1 = -1)
     ∧ (∀ info, env.parsedAccountInfo mint = Except.ok info →
          info.value = some none → (getTokenDecimals env mint).1 = -1)
     ∧ (∀ info d, env.parsedAccountInfo mint = Except.ok info →
          info.value = some (some d) →
          (getTokenDecimals env mint).1 = (d : Int)))
    ∧ ((getTokenDecimals env mint).1 < 0 → ∀ dest amount,
        sendToken env dest mint amount =
          (Except.error Err.decimalsUnavailable,
           [Event.decimalsQuery mint])) := by
  constructor
  · refine ⟨?_, ?_, ?_, ?_⟩
    · intro h; simp [getTokenDecimals, h]
    · intro info h hv; simp [getTokenDecimals, h, hv]
    · intro info h hv; simp [getTokenDecimals, h, hv]
    · intro info d h hv; simp [getTokenDecimals, h, hv]
  · intro hneg dest amount
    have htr := getTokenDecimals_trace env mint
    simp [sendToken, hneg, htr]

/-- Closed witness for `get_token_decimals_sentinel`, covering the three
failure modes, the success mode, and the `sendToken` abort. -/
theorem get_token_decimals_sentinel_witness :
    (getTokenDecimals envFail "USDC").1 = -1
    ∧ (getTokenDecimals envC10b "USDC").1 = -1
    ∧ (getTokenDecimals envC10 "USDC").1 = -1
    ∧ (getTokenDecimals baseEnv "USDC").1 = (6 : Int)
    ∧ sendToken envFail "dest" "USDC" 1 =
        (Except.error Err.decimalsUnavailable,
         [Event.decimalsQuery "USDC"]) :=
  ⟨(get_token_decimals_sentinel envFail "USDC").1.1 rfl,
   (get_token_decimals_sentinel envC10b "USDC").1.2.1 ⟨none⟩ rfl rfl,
   (get_token_decimals_sentinel envC10 "USDC").1.2.2.1 ⟨some none⟩ rfl rfl,
   (get_token_decimals_sentinel baseEnv "USDC").1.2.2.2 ⟨some (some 6)⟩ 6
     rfl rfl,
   (get_token_decimals_sentinel envFail "USDC").2 (by decide) "dest" 1⟩

end SolanaDex
